import Mathlib

/-!
Verification of the browser automation control layer (`src/browser_agent.py`).

The Session Controller (`BrowserAgent`) is shallowly embedded: the external
browser engine (Playwright) is a record of call outcomes, each engine call
returning `Except Exc α` where `Exc` distinguishes Playwright timeout errors
from all other exceptions (Python's `except PlaywrightTimeoutError` vs
`except Exception`).  Each public method is translated into a Lean function
from an engine behavior and a session state to a `MethodOut`: the returned
dictionary (or an escaped exception, when the Python code has no handler on
some path), the session state afterwards, and the trace of engine calls made.
-/

namespace BrowserAgent

/-- Exception raised by an engine call: `timeout` models `PlaywrightTimeoutError`,
`other` models every other `Exception`.  Both carry `str(e)`. -/
inductive Exc where
  | timeout (m : String)
  | other (m : String)
deriving DecidableEq

/-- The message `str(e)` of an exception. -/
def Exc.msg : Exc → String
  | .timeout m => m
  | .other m => m

/-- Whether the exception is a `PlaywrightTimeoutError`. -/
def Exc.isTimeout : Exc → Bool
  | .timeout _ => true
  | .other _ => false

/-- Outcome of an engine call: normal return or a raised exception. -/
abbrev EngRes (α : Type) := Except Exc α

/-- A cookie record; the controller passes cookies through without interpreting them. -/
structure Cookie where
  name : String
  value : String
  domain : String
  path : String
deriving DecidableEq

/-- The dictionary every public method returns.  Each optional field models the
presence or absence of the corresponding key in the Python result dict.
`statusCode` is the integer `"status"` key of `navigate`; `statusText` is the
string `"status"` key of `start`/`click`/`type_text`/`close`/cookie methods. -/
structure ActionResult where
  error : Option String := none
  suggestion : Option String := none
  warning : Option String := none
  url : Option String := none
  title : Option String := none
  statusCode : Option Nat := none
  statusText : Option String := none
  message : Option String := none
  content : Option String := none
  screenshotData : Option String := none
  screenshotType : Option String := none
  cookies : Option (List Cookie) := none
deriving DecidableEq

/-- The Session Controller's mutable fields; each `Bool` records whether the
corresponding Python attribute (`self.playwright`, `self.browser`,
`self.context`, `self.page`) is non-`None`. -/
structure Session where
  playwright : Bool
  browser : Bool
  context : Bool
  page : Bool
deriving DecidableEq

/-- The session with all fields unset (`None`), as built by `__init__`. -/
def emptySession : Session := ⟨false, false, false, false⟩

/-- A fully started session (all four attributes set). -/
def readySession : Session := ⟨true, true, true, true⟩

/-- One engine call, as recorded in a method's trace. -/
inductive EngineCall where
  | playwrightStart
  | launchBrowser
  | newContext
  | newPage
  | setDefaultNavigationTimeout (t : Nat)
  | goto (url : String)
  | waitForLoadState
  | title
  | reload
  | click (selector : String)
  | fill (selector : String) (text : String)
  | evaluate
  | screenshot
  | cookiesGet
  | cookiesAdd
  | cookiesDelete
  | browserClose
  | playwrightStop
deriving DecidableEq

/-- The engine behavior: the outcome of each engine operation the controller can
invoke.  `goto` returns the response's status (`none` models a `None` response
object); `pageUrl` is the value of the `page.url` property, which cannot raise. -/
structure Engine where
  playwrightStart : EngRes Unit
  launchBrowser : EngRes Unit
  newContext : EngRes Unit
  newPage : EngRes Unit
  goto : String → EngRes (Option Nat)
  waitForLoadState : EngRes Unit
  pageUrl : String
  title : EngRes String
  reload : EngRes Unit
  click : String → EngRes Unit
  fill : String → String → EngRes Unit
  evaluate : EngRes String
  screenshot : EngRes String
  cookies : EngRes (List Cookie)
  addCookies : List Cookie → EngRes Unit
  deleteCookies : List Cookie → EngRes Unit
  browserClose : EngRes Unit
  playwrightStop : EngRes Unit

/-- What a public method call produces: the returned dict (`Except.ok`) or an
exception that escaped the method (`Except.error`), the session state after the
call, and the engine calls attempted, in order. -/
structure MethodOut where
  result : Except Exc ActionResult
  session : Session
  trace : List EngineCall

/-- Whether the method let an exception escape instead of returning a dict. -/
def raised : Except Exc ActionResult → Bool
  | .error _ => true
  | .ok _ => false

/-- The returned dict of a method call (the all-`none` dict when it raised). -/
def okFields (m : MethodOut) : ActionResult :=
  match m.result with
  | .ok r => r
  | .error _ => {}

/-- The error message returned by actions invoked with no active page. -/
def notInitMsg : String := "Browser not initialized. Call /browser/start first."

/-- The `get_content` variant of the not-initialized message. -/
def noPageMsg : String := "No active page. Call /browser/start first."

/-- The not-initialized early return shared by the action methods: no engine
call is made and the session is untouched. -/
def notInitOut (s : Session) : MethodOut :=
  ⟨.ok { error := some notInitMsg }, s, []⟩

/-- The suggestion string attached to a hard navigation failure. -/
def navSuggestion : String :=
  "The page may have loaded partially. Try getting content or taking a screenshot."

/-- Python's `s.startswith(p)`, computed over the character lists. -/
def strStartsWith (s p : String) : Bool :=
  List.isPrefixOf p.toList s.toList

/-- URL normalization from `navigate`: prefix `https://` unless the url starts
with `http://` or `https://` (Python line 48). -/
def normalizeUrl (url : String) : String :=
  if strStartsWith url "http://" || strStartsWith url "https://" then url
  else "https://" ++ url

/-- The outer `except Exception` handler of `navigate` (lines 88-109): one
reload attempt waiting for DOM-content-loaded; on a successful reload and title
read, a warning-annotated success; on any further failure, the structured error
with the suggestion.  `u` is the normalized url, `exc` the caught exception,
`tr` the trace so far. -/
def hardRecover (e : Engine) (s : Session) (u : String) (tr : List EngineCall)
    (exc : Exc) : MethodOut :=
  let failOut : ActionResult :=
    { error := some ("Navigation to " ++ u ++ " failed: " ++ exc.msg),
      suggestion := some navSuggestion }
  if s.page then
    match e.reload with
    | .ok _ =>
      match e.title with
      | .ok ttl =>
        ⟨.ok { url := some e.pageUrl, title := some ttl, statusCode := some 200,
               warning := some ("Recovered from navigation error: " ++ exc.msg),
               message := some "Page recovered after navigation error" },
         s, tr ++ [.reload, .title]⟩
      | .error _ => ⟨.ok failOut, s, tr ++ [.reload, .title]⟩
    | .error _ => ⟨.ok failOut, s, tr ++ [.reload]⟩
  else ⟨.ok failOut, s, tr⟩

/-- The `except PlaywrightTimeoutError` handler of `navigate` (lines 74-86):
read current url and title and report a soft success with status 200.  A fresh
exception raised by the title read propagates to the outer handler. -/
def softSuccess (e : Engine) (s : Session) (u : String) (tr : List EngineCall)
    (exc : Exc) : MethodOut :=
  match e.title with
  | .ok ttl =>
    ⟨.ok { url := some e.pageUrl, title := some ttl, statusCode := some 200,
           warning := some ("Navigation timed out but continuing with available content: "
             ++ exc.msg),
           message := some ("Navigation to " ++ u
             ++ " timed out, but continuing with available content") },
     s, tr ++ [.title]⟩
  | .error exc2 => hardRecover e s u (tr ++ [.title]) exc2

/-- The body of `navigate` after the page check, on the normalized url `u`:
set the default navigation timeout, `goto`, wait for network idle, read url and
title; a timeout anywhere in that sequence goes to the soft-success handler,
any other exception to the hard-recovery handler. -/
def navTry (e : Engine) (s : Session) (u : String) (t : Nat) : MethodOut :=
  match e.goto u with
  | .error exc =>
    if exc.isTimeout then
      softSuccess e s u [.setDefaultNavigationTimeout t, .goto u] exc
    else
      hardRecover e s u [.setDefaultNavigationTimeout t, .goto u] exc
  | .ok response =>
    match e.waitForLoadState with
    | .error exc =>
      if exc.isTimeout then
        softSuccess e s u [.setDefaultNavigationTimeout t, .goto u, .waitForLoadState] exc
      else
        hardRecover e s u [.setDefaultNavigationTimeout t, .goto u, .waitForLoadState] exc
    | .ok _ =>
      match e.title with
      | .error exc =>
        if exc.isTimeout then
          softSuccess e s u
            [.setDefaultNavigationTimeout t, .goto u, .waitForLoadState, .title] exc
        else
          hardRecover e s u
            [.setDefaultNavigationTimeout t, .goto u, .waitForLoadState, .title] exc
      | .ok ttl =>
        ⟨.ok { url := some e.pageUrl, title := some ttl,
               statusCode := some (match response with | some st => st | none => 200),
               message := some ("Successfully navigated to " ++ e.pageUrl) },
         s, [.setDefaultNavigationTimeout t, .goto u, .waitForLoadState, .title]⟩

/-- `BrowserAgent.navigate(url, timeout)` (lines 33-109). -/
def navigate (e : Engine) (s : Session) (url : String) (t : Nat) : MethodOut :=
  if s.page then navTry e s (normalizeUrl url) t else notInitOut s

/-- `BrowserAgent.start()` (lines 21-31): the four engine resources are
acquired in order; a failure at any step leaves the later fields at their
previous values and returns a structured error. -/
def start (e : Engine) (s : Session) : MethodOut :=
  match e.playwrightStart with
  | .error exc =>
    ⟨.ok { error := some ("Failed to start browser: " ++ exc.msg) }, s,
     [.playwrightStart]⟩
  | .ok _ =>
    let s1 := { s with playwright := true }
    match e.launchBrowser with
    | .error exc =>
      ⟨.ok { error := some ("Failed to start browser: " ++ exc.msg) }, s1,
       [.playwrightStart, .launchBrowser]⟩
    | .ok _ =>
      let s2 := { s1 with browser := true }
      match e.newContext with
      | .error exc =>
        ⟨.ok { error := some ("Failed to start browser: " ++ exc.msg) }, s2,
         [.playwrightStart, .launchBrowser, .newContext]⟩
      | .ok _ =>
        let s3 := { s2 with context := true }
        match e.newPage with
        | .error exc =>
          ⟨.ok { error := some ("Failed to start browser: " ++ exc.msg) }, s3,
           [.playwrightStart, .launchBrowser, .newContext, .newPage]⟩
        | .ok _ =>
          ⟨.ok { statusText := some "Browser started" }, { s3 with page := true },
           [.playwrightStart, .launchBrowser, .newContext, .newPage]⟩

/-- `BrowserAgent.click(selector)` (lines 111-124). -/
def click (e : Engine) (s : Session) (selector : String) : MethodOut :=
  if s.page then
    match e.click selector with
    | .ok _ =>
      ⟨.ok { statusText := some ("Clicked element: " ++ selector) }, s, [.click selector]⟩
    | .error exc =>
      if exc.isTimeout then
        ⟨.ok { error := some ("Click timed out: " ++ selector) }, s, [.click selector]⟩
      else
        ⟨.ok { error := some ("Click failed: " ++ exc.msg) }, s, [.click selector]⟩
  else notInitOut s

/-- `BrowserAgent.type_text(selector, text)` (lines 126-139). -/
def type_text (e : Engine) (s : Session) (selector text : String) : MethodOut :=
  if s.page then
    match e.fill selector text with
    | .ok _ =>
      ⟨.ok { statusText := some ("Typed text into: " ++ selector) }, s,
       [.fill selector text]⟩
    | .error exc =>
      if exc.isTimeout then
        ⟨.ok { error := some ("Type text timed out: " ++ selector) }, s,
         [.fill selector text]⟩
      else
        ⟨.ok { error := some ("Type text failed: " ++ exc.msg) }, s,
         [.fill selector text]⟩
  else notInitOut s

/-- The error dict of `get_content` (lines 195-200): empty title and content,
and the current page url (empty only when the page attribute is unset). -/
def contentErr (e : Engine) (s : Session) (exc : Exc) : ActionResult :=
  { error := some ("Failed to get page content: " ++ exc.msg),
    title := some "", content := some "",
    url := some (if s.page then e.pageUrl else "") }

/-- `BrowserAgent.get_content()` (lines 141-200): title read, then the content
extraction script; any exception yields the error dict. -/
def get_content (e : Engine) (s : Session) : MethodOut :=
  if s.page then
    match e.title with
    | .error exc => ⟨.ok (contentErr e s exc), s, [.title]⟩
    | .ok ttl =>
      match e.evaluate with
      | .error exc => ⟨.ok (contentErr e s exc), s, [.title, .evaluate]⟩
      | .ok content =>
        ⟨.ok { title := some ttl, content := some content, url := some e.pageUrl },
         s, [.title, .evaluate]⟩
  else ⟨.ok { error := some noPageMsg }, s, []⟩

/-- `BrowserAgent.take_screenshot()` (lines 202-215); the engine's capture is
modelled as the base64 string handed back to the caller. -/
def take_screenshot (e : Engine) (s : Session) : MethodOut :=
  if s.page then
    match e.screenshot with
    | .ok data =>
      ⟨.ok { screenshotData := some data, screenshotType := some "image/png" }, s,
       [.screenshot]⟩
    | .error exc =>
      ⟨.ok { error := some ("Screenshot failed: " ++ exc.msg) }, s, [.screenshot]⟩
  else notInitOut s

/-- `BrowserAgent.get_cookies()` (lines 229-239). -/
def get_cookies (e : Engine) (s : Session) : MethodOut :=
  if s.page then
    match e.cookies with
    | .ok cks => ⟨.ok { cookies := some cks }, s, [.cookiesGet]⟩
    | .error exc =>
      ⟨.ok { error := some ("Failed to get cookies: " ++ exc.msg) }, s, [.cookiesGet]⟩
  else notInitOut s

/-- `BrowserAgent.add_cookies(cookies)` (lines 241-251). -/
def add_cookies (e : Engine) (s : Session) (cks : List Cookie) : MethodOut :=
  if s.page then
    match e.addCookies cks with
    | .ok _ => ⟨.ok { statusText := some "Cookies added" }, s, [.cookiesAdd]⟩
    | .error exc =>
      ⟨.ok { error := some ("Failed to add cookies: " ++ exc.msg) }, s, [.cookiesAdd]⟩
  else notInitOut s

/-- `BrowserAgent.delete_cookies(cookies)` (lines 253-263). -/
def delete_cookies (e : Engine) (s : Session) (cks : List Cookie) : MethodOut :=
  if s.page then
    match e.deleteCookies cks with
    | .ok _ => ⟨.ok { statusText := some "Cookies deleted" }, s, [.cookiesDelete]⟩
    | .error exc =>
      ⟨.ok { error := some ("Failed to delete cookies: " ++ exc.msg) }, s,
       [.cookiesDelete]⟩
  else notInitOut s

/-- The tail of `close` after the browser teardown: stop the engine driver if
present, then reset all four fields.  An exception from `playwright.stop()`
escapes before the resets run (the Python method has no handler). -/
def closeStop (e : Engine) (s : Session) (tr : List EngineCall) : MethodOut :=
  if s.playwright then
    match e.playwrightStop with
    | .error exc => ⟨.error exc, s, tr ++ [.playwrightStop]⟩
    | .ok _ => ⟨.ok { statusText := some "Browser closed" }, emptySession,
                tr ++ [.playwrightStop]⟩
  else ⟨.ok { statusText := some "Browser closed" }, emptySession, tr⟩

/-- `BrowserAgent.close()` (lines 217-227): no try/except — an exception from
`browser.close()` or `playwright.stop()` escapes and the field resets are
skipped. -/
def close (e : Engine) (s : Session) : MethodOut :=
  if s.browser then
    match e.browserClose with
    | .error exc => ⟨.error exc, s, [.browserClose]⟩
    | .ok _ => closeStop e s [.browserClose]
  else closeStop e s []

/-- One public method call of the controller, with its arguments. -/
inductive Action where
  | start
  | close
  | navigate (url : String) (t : Nat)
  | click (selector : String)
  | typeText (selector text : String)
  | getContent
  | takeScreenshot
  | getCookies
  | addCookies (cks : List Cookie)
  | deleteCookies (cks : List Cookie)
deriving DecidableEq

/-- Dispatch one public method call against an engine behavior and a session. -/
def runAction : Action → Engine → Session → MethodOut
  | .start, e, s => start e s
  | .close, e, s => close e s
  | .navigate url t, e, s => navigate e s url t
  | .click sel, e, s => click e s sel
  | .typeText sel txt, e, s => type_text e s sel txt
  | .getContent, e, s => get_content e s
  | .takeScreenshot, e, s => take_screenshot e s
  | .getCookies, e, s => get_cookies e s
  | .addCookies cks, e, s => add_cookies e s cks
  | .deleteCookies cks, e, s => delete_cookies e s cks

/-- Run a sequence of public method calls, each against its own engine
behavior, threading the session state. -/
def runAll : List (Action × Engine) → Session → Session
  | [], s => s
  | (a, e) :: rest, s => runAll rest (runAction a e s).session

/-- The spec's Session invariant: `activePage` (`self.page`) is non-null if and
only if `engineHandle` (`self.browser`, the browser process handle) is. -/
def sessionInvariant (s : Session) : Prop := s.page = s.browser

instance (s : Session) : Decidable (sessionInvariant s) := by
  unfold sessionInvariant; infer_instance

/-- The url of the first `goto` call in a trace, when there is one. -/
def firstGoto : List EngineCall → Option String
  | [] => none
  | c :: rest =>
    match c with
    | .goto u => some u
    | _ => firstGoto rest

/-- Whether an engine call is a page reload. -/
def isReload : EngineCall → Bool
  | .reload => true
  | _ => false

/-- Modelled from the spec: whether a url carries a URI scheme, written from
the spec's words "prefixing https:// when no scheme is present" — a scheme is
a leading letter followed by letters, digits, `+`, `-` or `.`, ending at a
colon (RFC 3986 syntax).  This is the spec-side predicate compared against the
source's `strStartsWith` check; it is not part of the code. -/
def schemeTail : List Char → Bool
  | [] => false
  | c :: rest => if c = ':' then true else (c.isAlpha || c.isDigit || c = '+' || c = '-' || c = '.') && schemeTail rest

/-- Modelled from the spec: a url "has a scheme" when it starts with a letter
and the following scheme characters reach a colon. -/
def specHasScheme (url : String) : Bool :=
  match url.toList with
  | [] => false
  | c :: rest => c.isAlpha && schemeTail rest

/-- An engine behavior on which every call succeeds; the page reports url
`https://example.com/` and title `Example`. -/
def okEngine : Engine where
  playwrightStart := .ok ()
  launchBrowser := .ok ()
  newContext := .ok ()
  newPage := .ok ()
  goto := fun _ => .ok (some 200)
  waitForLoadState := .ok ()
  pageUrl := "https://example.com/"
  title := .ok "Example"
  reload := .ok ()
  click := fun _ => .ok ()
  fill := fun _ _ => .ok ()
  evaluate := .ok "Example Domain"
  screenshot := .ok "iVBOR"
  cookies := .ok []
  addCookies := fun _ => .ok ()
  deleteCookies := fun _ => .ok ()
  browserClose := .ok ()
  playwrightStop := .ok ()

/-- Engine stub whose `goto` raises a non-timeout engine failure; reload and
everything else succeed. -/
def gotoFailEngine : Engine :=
  { okEngine with goto := fun _ => .error (.other "net::ERR_CONNECTION_REFUSED") }

/-- Engine stub whose `goto` and `reload` both raise non-timeout failures. -/
def gotoReloadFailEngine : Engine :=
  { okEngine with
    goto := fun _ => .error (.other "net::ERR_CONNECTION_REFUSED"),
    reload := .error (.other "net::ERR_CONNECTION_REFUSED") }

/-- Engine stub whose network-idle wait raises a timeout; `goto` succeeds. -/
def idleTimeoutEngine : Engine :=
  { okEngine with waitForLoadState := .error (.timeout "Timeout 15000ms exceeded") }

/-- Engine stub whose `goto` itself raises a timeout error. -/
def gotoTimeoutEngine : Engine :=
  { okEngine with goto := fun _ => .error (.timeout "Timeout 30000ms exceeded") }

/-- Engine stub whose page-creation step raises during `start()`. -/
def newPageFailEngine : Engine :=
  { okEngine with newPage := .error (.other "page create failed") }

/-- Engine stub whose `browser.close()` raises. -/
def closeFailEngine : Engine :=
  { okEngine with browserClose := .error (.other "browser close crashed") }

/-- Engine stub whose `title` read raises a non-timeout failure. -/
def titleFailEngine : Engine :=
  { okEngine with title := .error (.other "Execution context was destroyed") }

/-- Engine stub whose content-extraction script raises. -/
def evalFailEngine : Engine :=
  { okEngine with evaluate := .error (.other "Execution context was destroyed") }

end BrowserAgent

namespace BrowserAgent

/-- `hardRecover` leaves the session untouched. -/
theorem hardRecover_session (e : Engine) (s : Session) (u : String)
    (tr : List EngineCall) (exc : Exc) : (hardRecover e s u tr exc).session = s := by
  unfold hardRecover
  split
  · cases e.reload with
    | error exc2 => rfl
    | ok v => cases e.title <;> rfl
  · rfl

/-- `softSuccess` leaves the session untouched. -/
theorem softSuccess_session (e : Engine) (s : Session) (u : String)
    (tr : List EngineCall) (exc : Exc) : (softSuccess e s u tr exc).session = s := by
  unfold softSuccess
  cases e.title with
  | error exc2 => exact hardRecover_session ..
  | ok v => rfl

/-- `navTry` leaves the session untouched. -/
theorem navTry_session (e : Engine) (s : Session) (u : String) (t : Nat) :
    (navTry e s u t).session = s := by
  unfold navTry
  cases e.goto u with
  | error exc =>
    by_cases h : exc.isTimeout = true
    · simp only [h, if_true]; exact softSuccess_session ..
    · simp only [Bool.not_eq_true] at h; simp only [h, Bool.false_eq_true, if_false]
      exact hardRecover_session ..
  | ok resp =>
    cases e.waitForLoadState with
    | error exc =>
      by_cases h : exc.isTimeout = true
      · simp only [h, if_true]; exact softSuccess_session ..
      · simp only [Bool.not_eq_true] at h; simp only [h, Bool.false_eq_true, if_false]
        exact hardRecover_session ..
    | ok v =>
      cases e.title with
      | error exc =>
        by_cases h : exc.isTimeout = true
        · simp only [h, if_true]; exact softSuccess_session ..
        · simp only [Bool.not_eq_true] at h; simp only [h, Bool.false_eq_true, if_false]
          exact hardRecover_session ..
      | ok ttl => rfl

/-- `navigate` leaves the session untouched. -/
theorem navigate_session (e : Engine) (s : Session) (url : String) (t : Nat) :
    (navigate e s url t).session = s := by
  unfold navigate
  split
  · exact navTry_session ..
  · rfl

/-- `click` leaves the session untouched. -/
theorem click_session (e : Engine) (s : Session) (sel : String) :
    (click e s sel).session = s := by
  unfold click
  split
  · cases e.click sel with
    | error exc => by_cases h : exc.isTimeout = true <;> simp [h]
    | ok v => rfl
  · rfl

/-- `type_text` leaves the session untouched. -/
theorem type_text_session (e : Engine) (s : Session) (sel txt : String) :
    (type_text e s sel txt).session = s := by
  unfold type_text
  split
  · cases e.fill sel txt with
    | error exc => by_cases h : exc.isTimeout = true <;> simp [h]
    | ok v => rfl
  · rfl

/-- `get_content` leaves the session untouched. -/
theorem get_content_session (e : Engine) (s : Session) :
    (get_content e s).session = s := by
  unfold get_content
  split
  · cases e.title with
    | error exc => rfl
    | ok ttl => cases e.evaluate <;> rfl
  · rfl

/-- `take_screenshot` leaves the session untouched. -/
theorem take_screenshot_session (e : Engine) (s : Session) :
    (take_screenshot e s).session = s := by
  unfold take_screenshot
  split
  · cases e.screenshot <;> rfl
  · rfl

/-- `get_cookies` leaves the session untouched. -/
theorem get_cookies_session (e : Engine) (s : Session) :
    (get_cookies e s).session = s := by
  unfold get_cookies
  split
  · cases e.cookies <;> rfl
  · rfl

/-- `add_cookies` leaves the session untouched. -/
theorem add_cookies_session (e : Engine) (s : Session) (cks : List Cookie) :
    (add_cookies e s cks).session = s := by
  unfold add_cookies
  split
  · cases e.addCookies cks <;> rfl
  · rfl

/-- `delete_cookies` leaves the session untouched. -/
theorem delete_cookies_session (e : Engine) (s : Session) (cks : List Cookie) :
    (delete_cookies e s cks).session = s := by
  unfold delete_cookies
  split
  · cases e.deleteCookies cks <;> rfl
  · rfl

end BrowserAgent

namespace BrowserAgent

/-- `hardRecover` always returns a dict (both handler levels catch). -/
theorem hardRecover_ok (e : Engine) (s : Session) (u : String)
    (tr : List EngineCall) (exc : Exc) : raised (hardRecover e s u tr exc).result = false := by
  unfold hardRecover
  split
  · cases e.reload with
    | error exc2 => rfl
    | ok v => cases e.title <;> rfl
  · rfl

/-- `softSuccess` always returns a dict. -/
theorem softSuccess_ok (e : Engine) (s : Session) (u : String)
    (tr : List EngineCall) (exc : Exc) : raised (softSuccess e s u tr exc).result = false := by
  unfold softSuccess
  cases e.title with
  | error exc2 => exact hardRecover_ok ..
  | ok v => rfl

/-- `navTry` always returns a dict. -/
theorem navTry_ok (e : Engine) (s : Session) (u : String) (t : Nat) :
    raised (navTry e s u t).result = false := by
  unfold navTry
  cases e.goto u with
  | error exc =>
    by_cases h : exc.isTimeout = true
    · simp only [h, if_true]; exact softSuccess_ok ..
    · simp only [Bool.not_eq_true] at h; simp only [h, Bool.false_eq_true, if_false]
      exact hardRecover_ok ..
  | ok resp =>
    cases e.waitForLoadState with
    | error exc =>
      by_cases h : exc.isTimeout = true
      · simp only [h, if_true]; exact softSuccess_ok ..
      · simp only [Bool.not_eq_true] at h; simp only [h, Bool.false_eq_true, if_false]
        exact hardRecover_ok ..
    | ok v =>
      cases e.title with
      | error exc =>
        by_cases h : exc.isTimeout = true
        · simp only [h, if_true]; exact softSuccess_ok ..
        · simp only [Bool.not_eq_true] at h; simp only [h, Bool.false_eq_true, if_false]
          exact hardRecover_ok ..
      | ok ttl => rfl

/-- `navigate` always returns a dict; no exception escapes it. -/
theorem navigate_ok (e : Engine) (s : Session) (url : String) (t : Nat) :
    raised (navigate e s url t).result = false := by
  unfold navigate
  split
  · exact navTry_ok ..
  · rfl

/-- `start` always returns a dict; no exception escapes it. -/
theorem start_ok (e : Engine) (s : Session) : raised (start e s).result = false := by
  unfold start
  cases e.playwrightStart with
  | error exc => rfl
  | ok v1 =>
    cases e.launchBrowser with
    | error exc => rfl
    | ok v2 =>
      cases e.newContext with
      | error exc => rfl
      | ok v3 => cases e.newPage <;> rfl

/-- `click` always returns a dict; no exception escapes it. -/
theorem click_ok (e : Engine) (s : Session) (sel : String) :
    raised (click e s sel).result = false := by
  unfold click
  split
  · cases e.click sel with
    | error exc => by_cases h : exc.isTimeout = true <;> simp [raised, h]
    | ok v => rfl
  · rfl

/-- `type_text` always returns a dict; no exception escapes it. -/
theorem type_text_ok (e : Engine) (s : Session) (sel txt : String) :
    raised (type_text e s sel txt).result = false := by
  unfold type_text
  split
  · cases e.fill sel txt with
    | error exc => by_cases h : exc.isTimeout = true <;> simp [raised, h]
    | ok v => rfl
  · rfl

/-- `get_content` always returns a dict; no exception escapes it. -/
theorem get_content_ok (e : Engine) (s : Session) :
    raised (get_content e s).result = false := by
  unfold get_content
  split
  · cases e.title with
    | error exc => rfl
    | ok ttl => cases e.evaluate <;> rfl
  · rfl

/-- `take_screenshot` always returns a dict; no exception escapes it. -/
theorem take_screenshot_ok (e : Engine) (s : Session) :
    raised (take_screenshot e s).result = false := by
  unfold take_screenshot
  split
  · cases e.screenshot <;> rfl
  · rfl

/-- `get_cookies` always returns a dict; no exception escapes it. -/
theorem get_cookies_ok (e : Engine) (s : Session) :
    raised (get_cookies e s).result = false := by
  unfold get_cookies
  split
  · cases e.cookies <;> rfl
  · rfl

/-- `add_cookies` always returns a dict; no exception escapes it. -/
theorem add_cookies_ok (e : Engine) (s : Session) (cks : List Cookie) :
    raised (add_cookies e s cks).result = false := by
  unfold add_cookies
  split
  · cases e.addCookies cks <;> rfl
  · rfl

/-- `delete_cookies` always returns a dict; no exception escapes it. -/
theorem delete_cookies_ok (e : Engine) (s : Session) (cks : List Cookie) :
    raised (delete_cookies e s cks).result = false := by
  unfold delete_cookies
  split
  · cases e.deleteCookies cks <;> rfl
  · rfl

end BrowserAgent

namespace BrowserAgent

/-- The teardown tail of `close` preserves the session invariant: either it
resets every field or it raises with the fields untouched. -/
theorem closeStop_invariant (e : Engine) (s : Session) (tr : List EngineCall)
    (hs : sessionInvariant s) : sessionInvariant (closeStop e s tr).session := by
  unfold closeStop
  split
  · cases e.playwrightStop with
    | error exc => exact hs
    | ok v => exact rfl
  · exact rfl

/-- `close` preserves the session invariant: either the teardown completes and
every field is reset, or an exception escapes with the fields untouched. -/
theorem close_invariant (e : Engine) (s : Session) (hs : sessionInvariant s) :
    sessionInvariant (close e s).session := by
  unfold close
  split
  · cases e.browserClose with
    | error exc => exact hs
    | ok v => exact closeStop_invariant e s _ hs
  · exact closeStop_invariant e s _ hs

/-- `start` preserves the session invariant provided context and page creation
do not fail: a failure at the driver or launch step leaves page and browser
untouched, and a full success sets both. -/
theorem start_invariant (e : Engine) (s : Session) (hs : sessionInvariant s)
    (hctx : e.newContext = .ok ()) (hpg : e.newPage = .ok ()) :
    sessionInvariant (start e s).session := by
  unfold start
  cases e.playwrightStart with
  | error exc => exact hs
  | ok v1 =>
    cases e.launchBrowser with
    | error exc => exact hs
    | ok v2 => rw [hctx, hpg]; exact rfl

/-- Any single public method call preserves the session invariant, as long as a
`start` call runs against an engine whose context and page creation succeed. -/
theorem runAction_invariant (a : Action) (e : Engine) (s : Session)
    (hs : sessionInvariant s)
    (hstart : a = Action.start → e.newContext = .ok () ∧ e.newPage = .ok ()) :
    sessionInvariant (runAction a e s).session := by
  cases a with
  | start =>
    obtain ⟨hctx, hpg⟩ := hstart rfl
    exact start_invariant e s hs hctx hpg
  | close => exact close_invariant e s hs
  | navigate url t => unfold runAction; rw [navigate_session]; exact hs
  | click sel => unfold runAction; rw [click_session]; exact hs
  | typeText sel txt => unfold runAction; rw [type_text_session]; exact hs
  | getContent => unfold runAction; rw [get_content_session]; exact hs
  | takeScreenshot => unfold runAction; rw [take_screenshot_session]; exact hs
  | getCookies => unfold runAction; rw [get_cookies_session]; exact hs
  | addCookies cks => unfold runAction; rw [add_cookies_session]; exact hs
  | deleteCookies cks => unfold runAction; rw [delete_cookies_session]; exact hs

/-- The trace of `hardRecover` extends the trace it is given. -/
theorem hardRecover_trace (e : Engine) (s : Session) (u : String)
    (tr : List EngineCall) (exc : Exc) :
    ∃ l, (hardRecover e s u tr exc).trace = tr ++ l := by
  unfold hardRecover
  split
  · cases e.reload with
    | error exc2 => exact ⟨_, rfl⟩
    | ok v => cases e.title with
      | error exc2 => exact ⟨_, rfl⟩
      | ok ttl => exact ⟨_, rfl⟩
  · exact ⟨[], (List.append_nil tr).symm⟩

/-- The trace of `softSuccess` extends the trace it is given. -/
theorem softSuccess_trace (e : Engine) (s : Session) (u : String)
    (tr : List EngineCall) (exc : Exc) :
    ∃ l, (softSuccess e s u tr exc).trace = tr ++ l := by
  unfold softSuccess
  cases e.title with
  | error exc2 =>
    obtain ⟨l, hl⟩ := hardRecover_trace e s u (tr ++ [.title]) exc2
    exact ⟨[EngineCall.title] ++ l, by rw [hl, List.append_assoc]⟩
  | ok ttl => exact ⟨_, rfl⟩

/-- Every branch of `navTry` extends a trace that opens with the timeout
setting followed by the `goto` on the url `navTry` was given. -/
theorem navTry_trace (e : Engine) (s : Session) (u : String) (t : Nat) :
    ∃ l, (navTry e s u t).trace
      = [EngineCall.setDefaultNavigationTimeout t, EngineCall.goto u] ++ l := by
  unfold navTry
  cases e.goto u with
  | error exc =>
    by_cases h : exc.isTimeout = true
    · simp only [h, if_true]
      exact softSuccess_trace e s u [.setDefaultNavigationTimeout t, .goto u] exc
    · simp only [Bool.not_eq_true] at h
      simp only [h, Bool.false_eq_true, if_false]
      exact hardRecover_trace e s u [.setDefaultNavigationTimeout t, .goto u] exc
  | ok resp =>
    cases e.waitForLoadState with
    | error exc =>
      by_cases h : exc.isTimeout = true
      · simp only [h, if_true]
        obtain ⟨l, hl⟩ := softSuccess_trace e s u
          [.setDefaultNavigationTimeout t, .goto u, .waitForLoadState] exc
        exact ⟨EngineCall.waitForLoadState :: l, by rw [hl]; rfl⟩
      · simp only [Bool.not_eq_true] at h
        simp only [h, Bool.false_eq_true, if_false]
        obtain ⟨l, hl⟩ := hardRecover_trace e s u
          [.setDefaultNavigationTimeout t, .goto u, .waitForLoadState] exc
        exact ⟨EngineCall.waitForLoadState :: l, by rw [hl]; rfl⟩
    | ok v =>
      cases e.title with
      | error exc =>
        by_cases h : exc.isTimeout = true
        · simp only [h, if_true]
          obtain ⟨l, hl⟩ := softSuccess_trace e s u
            [.setDefaultNavigationTimeout t, .goto u, .waitForLoadState, .title] exc
          exact ⟨EngineCall.waitForLoadState :: EngineCall.title :: l, by rw [hl]; rfl⟩
        · simp only [Bool.not_eq_true] at h
          simp only [h, Bool.false_eq_true, if_false]
          obtain ⟨l, hl⟩ := hardRecover_trace e s u
            [.setDefaultNavigationTimeout t, .goto u, .waitForLoadState, .title] exc
          exact ⟨EngineCall.waitForLoadState :: EngineCall.title :: l, by rw [hl]; rfl⟩
      | ok ttl => exact ⟨[EngineCall.waitForLoadState, EngineCall.title], rfl⟩

/-- A found first `goto` survives appending further calls to the trace. -/
theorem firstGoto_append (tr l : List EngineCall) (u : String)
    (h : firstGoto tr = some u) : firstGoto (tr ++ l) = some u := by
  induction tr with
  | nil => simp [firstGoto] at h
  | cons c rest ih =>
    cases c <;> simp only [firstGoto, List.cons_append] at h ⊢ <;>
      first
        | exact h
        | exact ih h

end BrowserAgent

namespace BrowserAgent

/-- C1: for every url, if the initial `goto` raises a non-timeout engine
exception, `navigate` attempts exactly one reload of the current page; if the
reload (and the subsequent title read) succeeds, it returns a success dict
whose warning field notes the recovery, and if the reload or that title read
fails, it returns a dict with an error field and the non-empty suggestion
string.  No exception escapes. -/
theorem C1_goto_failure_recovery (e : Engine) (s : Session) (url : String) (t : Nat)
    (exc : Exc) (hpage : s.page = true)
    (hgoto : e.goto (normalizeUrl url) = .error exc) (hnt : exc.isTimeout = false) :
    raised (navigate e s url t).result = false
    ∧ (navigate e s url t).trace.countP isReload = 1
    ∧ (∀ ttl, e.reload = .ok () → e.title = .ok ttl →
        okFields (navigate e s url t)
          = { url := some e.pageUrl, title := some ttl, statusCode := some 200,
              warning := some ("Recovered from navigation error: " ++ exc.msg),
              message := some "Page recovered after navigation error" })
    ∧ (∀ exc2, e.reload = .error exc2 →
        okFields (navigate e s url t)
          = { error := some ("Navigation to " ++ normalizeUrl url ++ " failed: "
                ++ exc.msg),
              suggestion := some navSuggestion }
          ∧ navSuggestion ≠ "") := by
  have hnav : navigate e s url t
      = hardRecover e s (normalizeUrl url)
          [.setDefaultNavigationTimeout t, .goto (normalizeUrl url)] exc := by
    unfold navigate
    rw [if_pos hpage]
    unfold navTry
    rw [hgoto]
    simp only [hnt, Bool.false_eq_true, if_false]
  rw [hnav]
  unfold hardRecover
  rw [if_pos hpage]
  refine ⟨?_, ?_, ?_, ?_⟩
  · cases hr : e.reload with
    | error exc2 => rfl
    | ok v => cases e.title <;> rfl
  · cases hr : e.reload with
    | error exc2 => rfl
    | ok v => cases e.title <;> rfl
  · intro ttl hr ht
    rw [hr, ht]
    rfl
  · intro exc2 hr
    rw [hr]
    exact ⟨rfl, by decide⟩

/-- Witness for C1 at a concrete engine stub that raises a connection failure
on `goto` and succeeds on `reload`. -/
theorem C1_goto_failure_recovery_witness :
    raised (navigate gotoFailEngine readySession "example.com" 30000).result = false
    ∧ (navigate gotoFailEngine readySession "example.com" 30000).trace.countP isReload = 1
    ∧ okFields (navigate gotoFailEngine readySession "example.com" 30000)
        = { url := some "https://example.com/", title := some "Example",
            statusCode := some 200,
            warning := some "Recovered from navigation error: net::ERR_CONNECTION_REFUSED",
            message := some "Page recovered after navigation error" } :=
  have h := C1_goto_failure_recovery gotoFailEngine readySession "example.com" 30000
    (Exc.other "net::ERR_CONNECTION_REFUSED") rfl rfl rfl
  ⟨h.1, h.2.1, h.2.2.1 "Example" rfl rfl⟩

/-- C2: for every url, if `goto` succeeds but the network-idle wait raises a
timeout (and the current title is readable), `navigate` returns the soft
success: the current url and title, a warning, and status 200. -/
theorem C2_idle_timeout_soft_success (e : Engine) (s : Session) (url ttl : String)
    (t : Nat) (resp : Option Nat) (exc : Exc) (hpage : s.page = true)
    (hgoto : e.goto (normalizeUrl url) = .ok resp)
    (hwait : e.waitForLoadState = .error exc) (hto : exc.isTimeout = true)
    (htitle : e.title = .ok ttl) :
    raised (navigate e s url t).result = false
    ∧ okFields (navigate e s url t)
        = { url := some e.pageUrl, title := some ttl, statusCode := some 200,
            warning := some ("Navigation timed out but continuing with available content: "
              ++ exc.msg),
            message := some ("Navigation to " ++ normalizeUrl url
              ++ " timed out, but continuing with available content") } := by
  have hnav : navigate e s url t
      = softSuccess e s (normalizeUrl url)
          [.setDefaultNavigationTimeout t, .goto (normalizeUrl url),
           .waitForLoadState] exc := by
    unfold navigate
    rw [if_pos hpage]
    unfold navTry
    rw [hgoto, hwait]
    simp only [hto, if_true]
  rw [hnav]
  unfold softSuccess
  rw [htitle]
  exact ⟨rfl, rfl⟩

/-- Witness for C2 at a concrete engine stub whose network-idle wait times out. -/
theorem C2_idle_timeout_soft_success_witness :
    raised (navigate idleTimeoutEngine readySession "example.com" 30000).result = false
    ∧ okFields (navigate idleTimeoutEngine readySession "example.com" 30000)
        = { url := some "https://example.com/", title := some "Example",
            statusCode := some 200,
            warning := some "Navigation timed out but continuing with available content: Timeout 15000ms exceeded",
            message := some "Navigation to https://example.com timed out, but continuing with available content" } :=
  have h := C2_idle_timeout_soft_success idleTimeoutEngine readySession "example.com"
    "Example" 30000 (some 200) (Exc.timeout "Timeout 15000ms exceeded") rfl rfl rfl rfl rfl
  ⟨h.1, h.2⟩

/-- C10: if the initial `goto` itself raises a timeout error, `navigate` takes
the soft-success path — current url and title, a warning, status 200 — and
never attempts the reload recovery. -/
theorem C10_goto_timeout_soft_success (e : Engine) (s : Session) (url ttl : String)
    (t : Nat) (exc : Exc) (hpage : s.page = true)
    (hgoto : e.goto (normalizeUrl url) = .error exc) (hto : exc.isTimeout = true)
    (htitle : e.title = .ok ttl) :
    raised (navigate e s url t).result = false
    ∧ (navigate e s url t).trace.countP isReload = 0
    ∧ okFields (navigate e s url t)
        = { url := some e.pageUrl, title := some ttl, statusCode := some 200,
            warning := some ("Navigation timed out but continuing with available content: "
              ++ exc.msg),
            message := some ("Navigation to " ++ normalizeUrl url
              ++ " timed out, but continuing with available content") } := by
  have hnav : navigate e s url t
      = softSuccess e s (normalizeUrl url)
          [.setDefaultNavigationTimeout t, .goto (normalizeUrl url)] exc := by
    unfold navigate
    rw [if_pos hpage]
    unfold navTry
    rw [hgoto]
    simp only [hto, if_true]
  rw [hnav]
  unfold softSuccess
  rw [htitle]
  exact ⟨rfl, rfl, rfl⟩

/-- Witness for C10 at a concrete engine stub whose `goto` raises a timeout. -/
theorem C10_goto_timeout_soft_success_witness :
    raised (navigate gotoTimeoutEngine readySession "example.com" 30000).result = false
    ∧ (navigate gotoTimeoutEngine readySession "example.com" 30000).trace.countP isReload = 0
    ∧ okFields (navigate gotoTimeoutEngine readySession "example.com" 30000)
        = { url := some "https://example.com/", title := some "Example",
            statusCode := some 200,
            warning := some "Navigation timed out but continuing with available content: Timeout 30000ms exceeded",
            message := some "Navigation to https://example.com timed out, but continuing with available content" } :=
  have h := C10_goto_timeout_soft_success gotoTimeoutEngine readySession "example.com"
    "Example" 30000 (Exc.timeout "Timeout 30000ms exceeded") rfl rfl rfl rfl
  ⟨h.1, h.2.1, h.2.2⟩

end BrowserAgent

namespace BrowserAgent

/-- C3 counterexample: `close` has no exception handler, so an engine failure
in `browser.close()` escapes to the caller instead of becoming a structured
result — the claim's propagation policy fails for `close`. -/
theorem C3_close_propagates_counterexample :
    raised (close closeFailEngine readySession).result = true
    ∧ (close closeFailEngine readySession).result
        = Except.error (Exc.other "browser close crashed") :=
  ⟨rfl, rfl⟩

/-- C3 (amended): every public action method except `close` — start, navigate,
click, typeText, getContent, takeScreenshot, getCookies, addCookies,
deleteCookies — never propagates an exception, for every session state and
every engine behavior; it always returns a structured result value. -/
theorem C3_no_exception_escape_amended (e : Engine) (s : Session)
    (url sel txt : String) (t : Nat) (cks cks2 : List Cookie) :
    raised (start e s).result = false
    ∧ raised (navigate e s url t).result = false
    ∧ raised (click e s sel).result = false
    ∧ raised (type_text e s sel txt).result = false
    ∧ raised (get_content e s).result = false
    ∧ raised (take_screenshot e s).result = false
    ∧ raised (get_cookies e s).result = false
    ∧ raised (add_cookies e s cks).result = false
    ∧ raised (delete_cookies e s cks2).result = false :=
  ⟨start_ok e s, navigate_ok e s url t, click_ok e s sel, type_text_ok e s sel txt,
   get_content_ok e s, take_screenshot_ok e s, get_cookies_ok e s,
   add_cookies_ok e s cks, delete_cookies_ok e s cks2⟩

/-- C4 counterexample: a `start` whose page-creation step fails returns a
structured error but leaves `browser` set with `page` unset — the partial
state survives the call boundary, violating the claimed equivalence. -/
theorem C4_partial_start_counterexample :
    (start newPageFailEngine emptySession).session.browser = true
    ∧ (start newPageFailEngine emptySession).session.page = false
    ∧ ¬ sessionInvariant (start newPageFailEngine emptySession).session :=
  ⟨rfl, rfl, by decide⟩

/-- C4 (amended): the invariant "activePage is non-null iff engineHandle is
non-null" holds at every call boundary of every call sequence, provided each
`start` call runs against an engine whose context and page creation succeed;
a `start` failing during context or page creation leaves engineHandle set with
activePage unset. -/
theorem C4_invariant_amended (l : List (Action × Engine)) (s : Session)
    (hs : sessionInvariant s)
    (h : ∀ p ∈ l, p.1 = Action.start →
      p.2.newContext = .ok () ∧ p.2.newPage = .ok ()) :
    sessionInvariant (runAll l s) := by
  induction l generalizing s with
  | nil => exact hs
  | cons p rest ih =>
    obtain ⟨a, e⟩ := p
    exact ih (runAction a e s).session
      (runAction_invariant a e s hs (h ⟨a, e⟩ (List.mem_cons_self _ _)))
      (fun q hq => h q (List.mem_cons_of_mem _ hq))

/-- Witness for C4: a start–navigate–close sequence against a well-behaved
engine keeps the invariant from the empty session. -/
theorem C4_invariant_amended_witness :
    sessionInvariant (runAll
      [(Action.start, okEngine), (Action.navigate "example.com" 30000, okEngine),
       (Action.close, okEngine)] emptySession) :=
  C4_invariant_amended _ emptySession (by decide) (by
    intro p hp hst
    cases hp with
    | head => exact ⟨rfl, rfl⟩
    | tail _ hp2 =>
      cases hp2 with
      | head => exact absurd hst (by decide)
      | tail _ hp3 =>
        cases hp3 with
        | head => exact absurd hst (by decide)
        | tail _ hp4 => cases hp4)

/-- C5: with no active page (before `start()` or after `close()`), every
action returns the structured not-initialized error immediately: no exception,
no engine call, the exact error message of the source. -/
theorem C5_not_initialized (e : Engine) (s : Session) (hpage : s.page = false)
    (url sel txt : String) (t : Nat) (cks cks2 : List Cookie) :
    navigate e s url t = notInitOut s
    ∧ click e s sel = notInitOut s
    ∧ type_text e s sel txt = notInitOut s
    ∧ get_content e s = ⟨.ok { error := some noPageMsg }, s, []⟩
    ∧ take_screenshot e s = notInitOut s
    ∧ get_cookies e s = notInitOut s
    ∧ add_cookies e s cks = notInitOut s
    ∧ delete_cookies e s cks2 = notInitOut s
    ∧ raised (notInitOut s).result = false
    ∧ (okFields (notInitOut s)).error = some notInitMsg
    ∧ (notInitOut s).trace = [] := by
  have hneg : ¬ (s.page = true) := by simp [hpage]
  exact ⟨if_neg hneg, if_neg hneg, if_neg hneg, if_neg hneg, if_neg hneg, if_neg hneg,
    if_neg hneg, if_neg hneg, rfl, rfl, rfl⟩

/-- Witness for C5 on the never-started empty session. -/
theorem C5_not_initialized_witness :
    navigate okEngine emptySession "example.com" 30000 = notInitOut emptySession
    ∧ get_cookies okEngine emptySession = notInitOut emptySession
    ∧ (okFields (notInitOut emptySession)).error = some notInitMsg
    ∧ (notInitOut emptySession).trace = [] :=
  have h := C5_not_initialized okEngine emptySession rfl "example.com" "a" "b" 30000 [] []
  ⟨h.1, h.2.2.2.2.2.1, h.2.2.2.2.2.2.2.2.2.1, h.2.2.2.2.2.2.2.2.2.2⟩

end BrowserAgent

namespace BrowserAgent

/-- C6: `close()` is idempotent — for every session state, when the engine's
teardown calls succeed, two consecutive `close()` calls both return the
success dict and afterwards all Session fields are unset. -/
theorem C6_close_idempotent (e : Engine) (s : Session)
    (hbc : e.browserClose = .ok ()) (hps : e.playwrightStop = .ok ()) :
    raised (close e s).result = false
    ∧ okFields (close e s) = { statusText := some "Browser closed" }
    ∧ (close e s).session = emptySession
    ∧ raised (close e (close e s).session).result = false
    ∧ okFields (close e (close e s).session) = { statusText := some "Browser closed" }
    ∧ (close e (close e s).session).session = emptySession := by
  have h1 : (close e s).session = emptySession
      ∧ raised (close e s).result = false
      ∧ okFields (close e s) = { statusText := some "Browser closed" } := by
    obtain ⟨p, b, c, pg⟩ := s
    cases b <;> cases p <;>
      simp [close, closeStop, hbc, hps, raised, okFields, emptySession]
  refine ⟨h1.2.1, h1.2.2, h1.1, ?_, ?_, ?_⟩ <;> rw [h1.1] <;> rfl

/-- Witness for C6: closing the started session twice against a well-behaved
engine. -/
theorem C6_close_idempotent_witness :
    raised (close okEngine readySession).result = false
    ∧ okFields (close okEngine readySession) = { statusText := some "Browser closed" }
    ∧ (close okEngine readySession).session = emptySession
    ∧ raised (close okEngine (close okEngine readySession).session).result = false
    ∧ (close okEngine (close okEngine readySession).session).session = emptySession :=
  have h := C6_close_idempotent okEngine readySession rfl rfl
  ⟨h.1, h.2.1, h.2.2.1, h.2.2.2.1, h.2.2.2.2.2⟩

/-- C7 counterexample: `ftp://example.com` has a URI scheme, yet `navigate`
still prefixes `https://` to it — the code's check is a literal
`http://`/`https://` test, not a scheme test. -/
theorem C7_scheme_counterexample :
    specHasScheme "ftp://example.com" = true
    ∧ normalizeUrl "ftp://example.com" = "https://ftp://example.com"
    ∧ normalizeUrl "ftp://example.com" ≠ "ftp://example.com" :=
  ⟨by decide, by decide, by decide⟩

/-- C7 (amended): `navigate` prefixes `https://` exactly when the url does not
start with `http://` or `https://`, otherwise passes it unchanged; the
(normalized) url is the target of the `goto` engine call, and
`navigate("example.com")` behaves identically to
`navigate("https://example.com")`. -/
theorem C7_url_normalization_amended (e : Engine) (s : Session) (url : String)
    (t : Nat) (hpage : s.page = true) :
    (strStartsWith url "http://" = false → strStartsWith url "https://" = false →
      normalizeUrl url = "https://" ++ url)
    ∧ (strStartsWith url "http://" = true ∨ strStartsWith url "https://" = true →
      normalizeUrl url = url)
    ∧ firstGoto (navigate e s url t).trace = some (normalizeUrl url)
    ∧ navigate e s "example.com" t = navigate e s "https://example.com" t := by
  refine ⟨?_, ?_, ?_, ?_⟩
  · intro h1 h2
    unfold normalizeUrl
    rw [h1, h2]
    rfl
  · intro h
    unfold normalizeUrl
    rcases h with h | h <;> simp [h]
  · unfold navigate
    rw [if_pos hpage]
    obtain ⟨l, hl⟩ := navTry_trace e s (normalizeUrl url) t
    rw [hl]
    rfl
  · have hn : normalizeUrl "example.com" = normalizeUrl "https://example.com" := by decide
    unfold navigate
    rw [hn]

/-- Witness for C7 at `example.com`. -/
theorem C7_url_normalization_amended_witness :
    normalizeUrl "example.com" = "https://" ++ "example.com"
    ∧ firstGoto (navigate okEngine readySession "example.com" 30000).trace
        = some (normalizeUrl "example.com")
    ∧ navigate okEngine readySession "example.com" 30000
        = navigate okEngine readySession "https://example.com" 30000 :=
  have h := C7_url_normalization_amended okEngine readySession "example.com" 30000 rfl
  ⟨h.1 rfl rfl, h.2.2.1, h.2.2.2⟩

/-- C8 counterexample: in a started session whose title read fails, the
error dict of `get_content` carries the current page url
(`https://example.com/`), not an empty url as the claim states. -/
theorem C8_url_not_empty_counterexample :
    (okFields (get_content titleFailEngine readySession)).error
      = some "Failed to get page content: Execution context was destroyed"
    ∧ (okFields (get_content titleFailEngine readySession)).title = some ""
    ∧ (okFields (get_content titleFailEngine readySession)).content = some ""
    ∧ (okFields (get_content titleFailEngine readySession)).url
        = some "https://example.com/"
    ∧ (okFields (get_content titleFailEngine readySession)).url ≠ some "" :=
  ⟨rfl, rfl, rfl, rfl, by decide⟩

/-- C8 (amended): for every started session, when the title read or the
content-extraction script raises, `get_content` returns (without raising) a
well-formed dict carrying the error message, empty title, empty content, and
the current page url. -/
theorem C8_content_error_amended (e : Engine) (s : Session) (hpage : s.page = true) :
    (∀ exc, e.title = .error exc →
      raised (get_content e s).result = false
      ∧ okFields (get_content e s) = contentErr e s exc
      ∧ (contentErr e s exc).error = some ("Failed to get page content: " ++ exc.msg)
      ∧ (contentErr e s exc).title = some ""
      ∧ (contentErr e s exc).content = some ""
      ∧ (contentErr e s exc).url = some e.pageUrl)
    ∧ (∀ ttl exc, e.title = .ok ttl → e.evaluate = .error exc →
      raised (get_content e s).result = false
      ∧ okFields (get_content e s) = contentErr e s exc
      ∧ (contentErr e s exc).error = some ("Failed to get page content: " ++ exc.msg)
      ∧ (contentErr e s exc).title = some ""
      ∧ (contentErr e s exc).content = some ""
      ∧ (contentErr e s exc).url = some e.pageUrl) := by
  have hurl : ∀ exc : Exc, (contentErr e s exc).url = some e.pageUrl := by
    intro exc
    unfold contentErr
    rw [if_pos hpage]
  constructor
  · intro exc ht
    unfold get_content
    rw [if_pos hpage, ht]
    exact ⟨rfl, rfl, rfl, rfl, rfl, hurl exc⟩
  · intro ttl exc ht hev
    unfold get_content
    rw [if_pos hpage, ht, hev]
    exact ⟨rfl, rfl, rfl, rfl, rfl, hurl exc⟩

/-- Witness for C8 at a concrete engine stub whose title read raises. -/
theorem C8_content_error_amended_witness :
    raised (get_content titleFailEngine readySession).result = false
    ∧ okFields (get_content titleFailEngine readySession)
        = contentErr titleFailEngine readySession
            (Exc.other "Execution context was destroyed")
    ∧ (contentErr titleFailEngine readySession
        (Exc.other "Execution context was destroyed")).url
        = some "https://example.com/" :=
  have h := (C8_content_error_amended titleFailEngine readySession rfl).1
    (Exc.other "Execution context was destroyed") rfl
  ⟨h.1, h.2.1, h.2.2.2.2.2⟩

/-- C9: for every session and engine behavior, none of the eight action
methods (everything except `start` and `close`) changes the Session fields —
the session the caller holds is exactly the one before the call. -/
theorem C9_actions_preserve_session (e : Engine) (s : Session)
    (url sel txt : String) (t : Nat) (cks cks2 : List Cookie) :
    (navigate e s url t).session = s
    ∧ (click e s sel).session = s
    ∧ (type_text e s sel txt).session = s
    ∧ (get_content e s).session = s
    ∧ (take_screenshot e s).session = s
    ∧ (get_cookies e s).session = s
    ∧ (add_cookies e s cks).session = s
    ∧ (delete_cookies e s cks2).session = s :=
  ⟨navigate_session e s url t, click_session e s sel, type_text_session e s sel txt,
   get_content_session e s, take_screenshot_session e s, get_cookies_session e s,
   add_cookies_session e s cks, delete_cookies_session e s cks2⟩

end BrowserAgent
